import Mathlib

/-!
Verification development for the SimpleSpoon recipe backend (server.js).

The file shallowly embeds the Express request handlers of server.js:
the JSON handling used by the AI routes (a model of the JavaScript
JSON.parse applied to the raw model completion), the regex-based object
extraction of the upload-based image route, the recipe / favorites store
operations (modelled as pure state passing over lists of rows, per the
store query surface the code uses: equality filters, case-insensitive
substring filter via ilike with a percent-wrapped pattern, array overlap,
insert, partial update, delete), and the input-validation gates of the
AI routes.  The external generative model is a parameter (a function
from the message list to either a completion text or a failure), and
each AI handler additionally reports whether that parameter was invoked.
Machine-irrelevant details (HTTP plumbing, logging, CORS) are omitted;
numbers inside parsed JSON are kept as their source lexemes because the
code never computes with them.  Apostrophes inside the long prompt
literals are rendered as ASCII alternatives.
-/

namespace SimpleSpoon

/-! Json values as produced by the JavaScript JSON.parse.  Object member
lists keep source order; numeric literals keep their lexeme. -/

inductive Json where
  | null : Json
  | bool (b : Bool) : Json
  | num (lex : String) : Json
  | str (s : String) : Json
  | arr (xs : List Json) : Json
  | obj (kvs : List (String × Json)) : Json

/-- Whitespace accepted between JSON tokens. -/
def isJsonWs (c : Char) : Bool :=
  c == ' ' || c == '\n' || c == '\t' || c == '\r'

/-- Drop leading JSON whitespace. -/
def skipWs : List Char → List Char
  | [] => []
  | c :: cs => if isJsonWs c then skipWs cs else c :: cs

/-- Value of one hexadecimal digit, used for unicode escapes. -/
def hexVal (c : Char) : Option Nat :=
  if c.isDigit then some (c.toNat - 48)
  else if 'a' ≤ c && c ≤ 'f' then some (c.toNat - 87)
  else if 'A' ≤ c && c ≤ 'F' then some (c.toNat - 55)
  else none

/-- Single-character string escapes of JSON. -/
def escMap (e : Char) : Option Char :=
  if e == '"' then some '"'
  else if e == '\\' then some '\\'
  else if e == '/' then some '/'
  else if e == 'n' then some '\n'
  else if e == 't' then some '\t'
  else if e == 'r' then some '\r'
  else if e == 'b' then some (Char.ofNat 8)
  else if e == 'f' then some (Char.ofNat 12)
  else none

/-- Body of a JSON string literal, after the opening quote. -/
def parseStrBody : List Char → List Char → Option (String × List Char)
  | [], _ => none
  | c :: cs, acc =>
    if c == '"' then some (String.mk acc.reverse, cs)
    else if c == '\\' then
      match cs with
      | [] => none
      | e :: cs2 =>
        if e == 'u' then
          match cs2 with
          | h1 :: h2 :: h3 :: h4 :: cs3 =>
            match hexVal h1, hexVal h2, hexVal h3, hexVal h4 with
            | some a, some b, some c1, some d =>
                parseStrBody cs3 (Char.ofNat (((a * 16 + b) * 16 + c1) * 16 + d) :: acc)
            | _, _, _, _ => none
          | _ => none
        else
          match escMap e with
          | some ec => parseStrBody cs2 (ec :: acc)
          | none => none
    else parseStrBody cs (c :: acc)

/-- Expect the exact remaining characters of a keyword literal. -/
def expectLit : List Char → List Char → Json → Option (Json × List Char)
  | cs, [], v => some (v, cs)
  | c :: cs, l :: ls, v => if c == l then expectLit cs ls v else none
  | [], _ :: _, _ => none

/-- Split a maximal run of decimal digits off the front. -/
def takeDigits (cs : List Char) : List Char × List Char :=
  (cs.takeWhile Char.isDigit, cs.dropWhile Char.isDigit)

/-- Integer part of a JSON number (leading zeros are rejected, as in
JSON.parse). -/
def parseIntPart : List Char → Option (List Char × List Char)
  | [] => none
  | '0' :: r =>
    match r with
    | d :: _ => if d.isDigit then none else some (['0'], r)
    | [] => some (['0'], [])
  | c :: r =>
    if c.isDigit then
      let p := takeDigits r
      some (c :: p.1, p.2)
    else none

/-- Optional fraction part of a JSON number. -/
def parseFrac (cs : List Char) : Option (List Char × List Char) :=
  match cs with
  | '.' :: r =>
    let p := takeDigits r
    if p.1.isEmpty then none else some ('.' :: p.1, p.2)
  | _ => some ([], cs)

/-- Optional exponent part of a JSON number. -/
def parseExp (cs : List Char) : Option (List Char × List Char) :=
  match cs with
  | c :: r =>
    if c == 'e' || c == 'E' then
      let q : List Char × List Char :=
        match r with
        | s :: r2 => if s == '+' || s == '-' then ([s], r2) else ([], s :: r2)
        | [] => ([], [])
      let p := takeDigits q.2
      if p.1.isEmpty then none else some (c :: (q.1 ++ p.1), p.2)
    else some ([], cs)
  | [] => some ([], cs)

/-- A JSON number; the lexeme is kept verbatim. -/
def parseNum (cs : List Char) : Option (Json × List Char) :=
  let sp : List Char × List Char :=
    match cs with
    | '-' :: r => (['-'], r)
    | _ => ([], cs)
  match parseIntPart sp.2 with
  | none => none
  | some (ip, cs2) =>
    match parseFrac cs2 with
    | none => none
    | some (fp, cs3) =>
      match parseExp cs3 with
      | none => none
      | some (ep, cs4) => some (Json.num (String.mk (sp.1 ++ ip ++ fp ++ ep)), cs4)

mutual

/-- Recursive-descent JSON value, fuelled for termination. -/
def parseValue : Nat → List Char → Option (Json × List Char)
  | 0, _ => none
  | fuel + 1, cs =>
    match skipWs cs with
    | [] => none
    | c :: rest =>
      if c == '"' then (parseStrBody rest []).map (fun p => (Json.str p.1, p.2))
      else if c == '[' then
        match skipWs rest with
        | ']' :: r2 => some (Json.arr [], r2)
        | _ =>
          match parseElems fuel rest with
          | some (vs, r2) => some (Json.arr vs, r2)
          | none => none
      else if c == '{' then
        match skipWs rest with
        | '}' :: r2 => some (Json.obj [], r2)
        | _ =>
          match parseMembers fuel rest with
          | some (kvs, r2) => some (Json.obj kvs, r2)
          | none => none
      else if c == 't' then expectLit rest ['r', 'u', 'e'] (Json.bool true)
      else if c == 'f' then expectLit rest ['a', 'l', 's', 'e'] (Json.bool false)
      else if c == 'n' then expectLit rest ['u', 'l', 'l'] Json.null
      else if c == '-' || c.isDigit then parseNum (c :: rest)
      else none

/-- Comma-separated array elements up to the closing bracket. -/
def parseElems : Nat → List Char → Option (List Json × List Char)
  | 0, _ => none
  | fuel + 1, cs =>
    match parseValue fuel cs with
    | none => none
    | some (v, r1) =>
      match skipWs r1 with
      | ',' :: r2 =>
        match parseElems fuel r2 with
        | some (vs, r3) => some (v :: vs, r3)
        | none => none
      | ']' :: r2 => some ([v], r2)
      | _ => none

/-- Comma-separated object members up to the closing brace. -/
def parseMembers : Nat → List Char → Option (List (String × Json) × List Char)
  | 0, _ => none
  | fuel + 1, cs =>
    match skipWs cs with
    | '"' :: r1 =>
      match parseStrBody r1 [] with
      | none => none
      | some (k, r2) =>
        match skipWs r2 with
        | ':' :: r3 =>
          match parseValue fuel r3 with
          | none => none
          | some (v, r4) =>
            match skipWs r4 with
            | ',' :: r5 =>
              match parseMembers fuel r5 with
              | some (kvs, r6) => some ((k, v) :: kvs, r6)
              | none => none
            | '}' :: r5 => some ([(k, v)], r5)
            | _ => none
        | _ => none
    | _ => none

end

/-- Model of the JavaScript JSON.parse on a character list: one value,
then only trailing whitespace; anything else is a parse failure. -/
def jsonParseL (cs : List Char) : Option Json :=
  match parseValue (2 * cs.length + 8) cs with
  | some (v, rest) => if (skipWs rest).isEmpty then some v else none
  | none => none

/-- Characters that can begin a JSON value. -/
def isJsonStart (c : Char) : Bool :=
  c == '"' || c == '[' || c == '{' || c == 't' || c == 'f' || c == 'n'
    || c == '-' || c.isDigit

/-- Model of the JavaScript String.prototype.trim. -/
def trimL (cs : List Char) : List Char :=
  ((cs.dropWhile Char.isWhitespace).reverse.dropWhile Char.isWhitespace).reverse

/-- Model of the regex match against open-brace, any characters, close-brace
used by the upload image route: the substring from the first opening brace
to the last closing brace, when the latter comes after the former. -/
def extractBraces (cs : List Char) : Option (List Char) :=
  match cs.findIdx? (fun c => c == '{'), cs.reverse.findIdx? (fun c => c == '}') with
  | some i, some jr =>
    let j := cs.length - 1 - jr
    if i < j then some ((cs.drop i).take (j - i + 1)) else none
  | _, _ => none

/-! Case-insensitive substring matching, as used by the ilike filter with a
percent-wrapped pattern and by the JavaScript toLowerCase / includes pair. -/

/-- Leading match of a pattern against a character list. -/
def leadMatch : List Char → List Char → Bool
  | [], _ => true
  | _ :: _, [] => false
  | a :: as, b :: bs => a == b && leadMatch as bs

/-- Substring occurrence test on character lists. -/
def subMatch (needle : List Char) : List Char → Bool
  | [] => needle.isEmpty
  | c :: cs => leadMatch needle (c :: cs) || subMatch needle cs

/-- Case-insensitive substring test: does the haystack title contain the
needle search term, ignoring case (toLowerCase on both sides, then an
includes test). -/
def containsCI (hay needle : String) : Bool :=
  subMatch (needle.toList.map Char.toLower) (hay.toList.map Char.toLower)

/-- Model of the JavaScript split on a comma, as the handlers turn the tag
query parameter into a tag list. -/
def splitCommaAux : List Char → List Char → List String
  | [], acc => [String.mk acc.reverse]
  | c :: cs, acc =>
    if c == ',' then String.mk acc.reverse :: splitCommaAux cs []
    else splitCommaAux cs (c :: acc)

/-- Comma-separated tag parameter as a list of tags. -/
def splitTags (tv : String) : List String :=
  splitCommaAux tv.toList []

/-! Data model: rows of the recipes and favorites tables, and the store. -/

/-- A row of the recipes table, with the columns the code selects. -/
structure Recipe where
  id : String
  user_id : String
  title : String
  highlight : String
  tag : List String
  ingredients : List String
  instructions : List String
  nutrition_info : Json
  image : Option String
  supporting_images : List String
  created_at : String

/-- A row of the favorites relation: the (user, recipe) pair. -/
structure Fav where
  user_id : String
  recipe_id : String

/-- The persistent store: the two tables the handlers touch. -/
structure Store where
  recipes : List Recipe
  favorites : List Fav

/-- Encoding of a recipe row as the JSON the handlers respond with. -/
def encodeRecipe (r : Recipe) : Json :=
  Json.obj
    [("id", Json.str r.id),
     ("user_id", Json.str r.user_id),
     ("title", Json.str r.title),
     ("highlight", Json.str r.highlight),
     ("tag", Json.arr (r.tag.map Json.str)),
     ("ingredients", Json.arr (r.ingredients.map Json.str)),
     ("instructions", Json.arr (r.instructions.map Json.str)),
     ("nutrition_info", r.nutrition_info),
     ("image", match r.image with | some u => Json.str u | none => Json.null),
     ("supporting_images", Json.arr (r.supporting_images.map Json.str)),
     ("created_at", Json.str r.created_at)]

/-- An HTTP response: status code and JSON body. -/
structure Response where
  status : Nat
  body : Json

/-- Error response in the shape res.status(code).json sends. -/
def respErr (code : Nat) (msg : String) : Response :=
  ⟨code, Json.obj [("error", Json.str msg)]⟩

/-- Truthiness of an optional string parameter, as the JavaScript guards
use it: absent and empty are both missing. -/
def present : Option String → Bool
  | none => false
  | some s => !(s == "")

/-! The external generative model: one chat exchange. -/

/-- A role-tagged chat message. -/
structure ChatMsg where
  role : String
  content : String

/-- The external model call: given the messages, either a completion text
or a failure of the call. -/
def ModelFn : Type := List ChatMsg → Except Unit String

/-! Prompt builders, verbatim from the route handlers (braces escaped,
apostrophes rendered in ASCII). -/

/-- Bulleted ingredient list of the ask-ai-chef system prompt. -/
def bulletList (items : List String) : String :=
  String.intercalate "\n" (items.map (fun ing => "• " ++ ing))

/-- Numbered instruction list of the ask-ai-chef system prompt. -/
def numberListFrom : Nat → List String → List String
  | _, [] => []
  | i, s :: ss => (toString (i + 1) ++ ". " ++ s) :: numberListFrom (i + 1) ss

/-- Numbered instruction list, starting at 1. -/
def numberList (items : List String) : String :=
  String.intercalate "\n" (numberListFrom 0 items)

/-- System prompt of the ask-ai-chef route. -/
def askSystemPrompt (recipe : Recipe) : String :=
  "\n  You are a helpful cooking assistant. Use the full recipe context below to answer user questions about substitutions, modifications, or cooking methods.\n  Be clear, concise, and friendly. When suggesting a change, explain how it affects the rest of the recipe.\n  \n  Recipe Title: "
    ++ recipe.title
    ++ "\n  Category: " ++ String.intercalate "," recipe.tag
    ++ "\n  \n  Ingredients:\n  " ++ bulletList recipe.ingredients
    ++ "\n  \n  Instructions:\n  " ++ numberList recipe.instructions
    ++ "\n    "

/-- System prompt of the inspire-recipes route. -/
def inspireSystemPrompt (prompt : String) : String :=
  "\n    You are an AI sous-chef. Given a prompt from a home cook, return 3 diverse and fun recipe ideas in JSON format. Each recipe must include:\n"
    ++ "    - \"title\" (string): the name of the recipe\n"
    ++ "    - \"highlight\" (string): 1-sentence teaser\n"
    ++ "    - \"tag\" (array of strings): categories like \"Dinner\", \"Vegan\", \"Snack\", \"Breakfast\"\n"
    ++ "    - \"ingredients\" (array of strings): list of ingredients\n"
    ++ "    - \"instructions\" (array of strings): step-by-step instructions\n"
    ++ "    - \"nutrition_info\" (Return the nutrition_info as a single flat JSON object (not an array or list)): nutrition information for the recipe\n"
    ++ "    \n    Respond ONLY with a JSON array of 3 objects, like this:\n    \n"
    ++ "    [\n      \x7b\n        \"title\": \"Avocado Toast Deluxe\",\n        \"highlight\": \"A savory toast with creamy avocado, chili flakes, and lime.\",\n        \"tag\": [\"Breakfast\", \"Snack\"],\n        \"ingredients\": [\"2 slices bread\", \"1 avocado\", \"1/2 lime\", \"Salt\", \"Chili flakes\"],\n        \"instructions\": [\n          \"Toast the bread.\",\n          \"Mash the avocado with lime and salt.\",\n          \"Spread on toast and sprinkle chili flakes.\"\n        ],\n        \"nutrition_info\":\n          \x7b\n            \"calories\": 200,\n            \"fat\": 5,\n            \"cholesterol\": 30,\n            \"sodium\": 10,\n            \"carbs\": 2,\n            \"fiber\": 1,\n            \"sugar\": 100,\n            \"protein\": 5\n          \x7d\n      \x7d\n    ]\n    \n    User prompt: "
    ++ prompt ++ "\n    "

/-- System prompt of the upload-based analyze-recipe-image route. -/
def visionSystemPrompt : String :=
  "You are a recipe extraction assistant. You will be given a photo of a physical recipe, handwritten card, or prepared food. Your task is to extract structured information from the image and infer any missing details using context and general cooking knowledge.\n\n"
    ++ "Return a JSON object with the following fields:\n"
    ++ "- title (string): A clear, concise recipe title. Infer if not explicitly stated.\n"
    ++ "- highlight (string): A short description of what makes the recipe special or unique.\n"
    ++ "- ingredients (array of strings): List of ingredients. Infer any that are implied but not explicitly listed.\n"
    ++ "- instructions (array of strings): Step-by-step instructions. Reconstruct plausible steps if missing.\n"
    ++ "- nutrition_info (object): Always provide estimated nutritional values for a standard serving, even if the recipe does not list them. Use general knowledge or typical values for similar recipes. Include the following keys, and provide a value for each (as a string with units where appropriate):\n"
    ++ "  - \"calories\": 200,\n  - \"fat\": 10,\n  - \"cholesterol\": 30,\n  - \"sodium\": 20,\n  - \"carbs\": 20,\n  - \"fiber\": 20,\n  - \"sugar\": 5,\n  - \"protein\": 10\n\n"
    ++ "Always return all fields. Do not leave any field blank, null, or empty — infer the best possible estimate when necessary. Return only the JSON object.\n"

/-- User text of the base64 analyze-recipe-image route. -/
def base64VisionText : String :=
  "Analyze this recipe image and extract the following information in JSON format:\n              \x7b\n                \"title\": \"Recipe name\",\n                \"ingredients\": [\"list of ingredients\"],\n                \"instructions\": [\"step by step instructions\"],\n                \"tag\": [\"category tags like Dinner, Breakfast, etc.\"],\n                \"nutrition_info\": [\x7b\n                  \"calories\": number,\n                  \"protein\": number,\n                  \"carbs\": number,\n                  \"fat\": number,\n                  \"fiber\": number,\n                  \"sugar\": number,\n                  \"sodium\": number\n                \x7d]\n              \x7d\n              \n              If any information is not visible in the image, use null for that field."

/-- Word characters of the data-url regex. -/
def isWordChar (c : Char) : Bool :=
  c.isAlphanum || c == '_'

/-- Model of the replace of a leading data-image-base64 url marker, as the
base64 image route applies before the model call. -/
def stripDataUrl (s : String) : String :=
  let cs := s.toList
  if leadMatch "data:image/".toList cs then
    let rest := cs.drop 11
    let w := rest.takeWhile isWordChar
    let rest2 := rest.dropWhile isWordChar
    if !w.isEmpty && leadMatch ";base64,".toList rest2 then
      String.mk (rest2.drop 8)
    else s
  else s

/-! Request handlers, one definition per route of server.js.  AI handlers
return the response paired with a flag recording whether the external
model was invoked; store handlers return the response paired with the
store after the operation. -/

/-- POST ask-ai-chef: validation gate, prompt build, model call. -/
def askAiChef (question : Option String) (recipe : Option Recipe)
    (model : ModelFn) : Response × Bool :=
  match question, recipe with
  | some q, some rec =>
    if q == "" then (respErr 400 "Question and recipe are required.", false)
    else
      match model [⟨"system", askSystemPrompt rec⟩, ⟨"user", q⟩] with
      | Except.ok content =>
          (⟨200, Json.obj [("answer", Json.str (String.mk (trimL content.toList)))]⟩, true)
      | Except.error _ => (respErr 500 "Failed to fetch response from AI.", true)
  | _, _ => (respErr 400 "Question and recipe are required.", false)

/-- GET api/recipes: rows of the owner, then the optional ilike title
filter, then the optional tag overlap filter, applied by the store. -/
def listByOwner (s : Store) (uid : String) (search tag : Option String) :
    List Recipe :=
  let base := s.recipes.filter (fun r => r.user_id == uid)
  let q1 :=
    match search with
    | some sv => if sv == "" then base else base.filter (fun r => containsCI r.title sv)
    | none => base
  match tag with
  | some tv =>
    if tv == "" then q1
    else q1.filter (fun r => (splitTags tv).any (fun t => r.tag.contains t))
  | none => q1

/-- GET api/recipes, full handler. -/
def apiRecipes (user_id search tag : Option String) (s : Store) : Response :=
  match user_id with
  | none => respErr 400 "user_id is required"
  | some uid =>
    if uid == "" then respErr 400 "user_id is required"
    else ⟨200, Json.obj
      [("recipes", Json.arr ((listByOwner s uid search tag).map encodeRecipe))]⟩

/-- POST favorite-recipe: unconditional insert of the relation row. -/
def favoriteRecipe (user_id recipe_id : Option String) (s : Store) :
    Response × Store :=
  match user_id, recipe_id with
  | some u, some r =>
    if u == "" || r == "" then (respErr 400 "Missing user_id or recipe_id.", s)
    else
      (⟨200, Json.obj [("success", Json.bool true), ("data", Json.null)]⟩,
       ⟨s.recipes, s.favorites ++ [⟨u, r⟩]⟩)
  | _, _ => (respErr 400 "Missing user_id or recipe_id.", s)

/-- DELETE favorite-recipe: delete the rows matching both columns. -/
def unfavoriteRecipe (user_id recipe_id : Option String) (s : Store) :
    Response × Store :=
  match user_id, recipe_id with
  | some u, some r =>
    if u == "" || r == "" then (respErr 400 "Missing user_id or recipe_id.", s)
    else
      (⟨200, Json.obj [("success", Json.bool true)]⟩,
       ⟨s.recipes, s.favorites.filter (fun f => !(f.user_id == u && f.recipe_id == r))⟩)
  | _, _ => (respErr 400 "Missing user_id or recipe_id.", s)

/-- POST favorite-recipe-check: maybeSingle existence check; more than one
matching row is an error of maybeSingle, caught as a 500. -/
def favoriteRecipeCheck (user_id recipe_id : Option String) (s : Store) :
    Response :=
  match user_id, recipe_id with
  | some u, some r =>
    if u == "" || r == "" then respErr 400 "Missing user_id or recipe_id."
    else
      match s.favorites.filter (fun f => f.user_id == u && f.recipe_id == r) with
      | [] => ⟨200, Json.obj [("isFavorited", Json.bool false)]⟩
      | [_] => ⟨200, Json.obj [("isFavorited", Json.bool true)]⟩
      | _ => respErr 500 "Failed to check favorite status."
  | _, _ => respErr 400 "Missing user_id or recipe_id."

/-- POST inspire-recipes: validation gate, model call, JSON.parse of the
trimmed completion with no extraction step, payload returned as parsed. -/
def inspireRecipes (prompt : Option String) (model : ModelFn) :
    Response × Bool :=
  match prompt with
  | some p =>
    if p == "" then (respErr 400 "Prompt is required.", false)
    else
      match model [⟨"system", inspireSystemPrompt p⟩, ⟨"user", p⟩] with
      | Except.error _ => (respErr 500 "Failed to generate recipe inspiration.", true)
      | Except.ok content =>
        match jsonParseL (trimL content.toList) with
        | none => (respErr 500 "Failed to parse AI response.", true)
        | some v => (⟨200, Json.obj [("recipes", v)]⟩, true)
  | none => (respErr 400 "Prompt is required.", false)

/-- Join of the favorites of a user with the recipes table, as the nested
select of api/favorite-recipes returns it. -/
def favoritesJoin (s : Store) (uid : String) : List Recipe :=
  (s.favorites.filter (fun f => f.user_id == uid)).filterMap
    (fun f => s.recipes.find? (fun r => r.id == f.recipe_id))

/-- GET api/favorite-recipes: join, then the in-process search and tag
filters of the handler. -/
def listFavoritesForUser (s : Store) (uid : String) (search tag : Option String) :
    List Recipe :=
  let favoriteRecipes := favoritesJoin s uid
  let filtered :=
    match search with
    | some sv =>
      if sv == "" then favoriteRecipes
      else favoriteRecipes.filter (fun r => containsCI r.title sv)
    | none => favoriteRecipes
  match tag with
  | some tv =>
    if tv == "" then filtered
    else filtered.filter (fun r => (splitTags tv).any (fun t => r.tag.contains t))
  | none => filtered

/-- GET api/favorite-recipes, full handler. -/
def apiFavoriteRecipes (user_id search tag : Option String) (s : Store) :
    Response :=
  match user_id with
  | none => respErr 400 "user_id is required"
  | some uid =>
    if uid == "" then respErr 400 "user_id is required"
    else ⟨200, Json.obj
      [("recipes", Json.arr ((listFavoritesForUser s uid search tag).map encodeRecipe))]⟩

/-- The fields an update request may carry: the rest of the body after the
id is destructured away.  A field is written exactly when supplied. -/
structure RecipeUpdate where
  user_id : Option String
  title : Option String
  highlight : Option String
  tag : Option (List String)
  ingredients : Option (List String)
  instructions : Option (List String)
  nutrition_info : Option Json
  image : Option (Option String)
  supporting_images : Option (List String)
  created_at : Option String

/-- Partial merge of an update into a row: supplied columns are written,
the id column is never part of the update. -/
def applyUpdate (u : RecipeUpdate) (r : Recipe) : Recipe :=
  ⟨r.id,
   u.user_id.getD r.user_id,
   u.title.getD r.title,
   u.highlight.getD r.highlight,
   u.tag.getD r.tag,
   u.ingredients.getD r.ingredients,
   u.instructions.getD r.instructions,
   u.nutrition_info.getD r.nutrition_info,
   u.image.getD r.image,
   u.supporting_images.getD r.supporting_images,
   u.created_at.getD r.created_at⟩

/-- PATCH update-recipe: id is destructured out of the body and used only
to select the row; the remaining fields are partially merged. -/
def updateRecipe (id : Option String) (u : RecipeUpdate) (s : Store) :
    Response × Store :=
  match id with
  | none => (respErr 400 "Recipe id is required.", s)
  | some idv =>
    if idv == "" then (respErr 400 "Recipe id is required.", s)
    else
      let newRecipes := s.recipes.map (fun r => if r.id == idv then applyUpdate u r else r)
      let updatedRows := newRecipes.filter (fun r => r.id == idv)
      (⟨200, Json.obj [("success", Json.bool true),
          ("data", Json.arr (updatedRows.map encodeRecipe))]⟩,
       ⟨newRecipes, s.favorites⟩)

/-- POST analyze-recipe-image (multer upload variant): missing file or
unreadable path throws before the model call and is caught as the generic
500; the temp file is unlinked only after a successful parse.  The third
component is the uploads directory, a list of path and content pairs. -/
def analyzeRecipeImage (file : Option String) (fs : List (String × String))
    (model : ModelFn) : Response × Bool × List (String × String) :=
  match file with
  | none => (respErr 500 "Failed to analyze image.", false, fs)
  | some filePath =>
    match fs.find? (fun e => e.1 == filePath) with
    | none => (respErr 500 "Failed to analyze image.", false, fs)
    | some entry =>
      match model [⟨"system", visionSystemPrompt⟩,
        ⟨"user", "Extract the recipe details from this image.\n"
          ++ "data:image/jpeg;base64," ++ entry.2⟩] with
      | Except.error _ => (respErr 500 "Failed to analyze image.", true, fs)
      | Except.ok text =>
        match extractBraces text.toList with
        | none => (respErr 500 "Failed to parse AI response.", true, fs)
        | some sub =>
          match jsonParseL sub with
          | none => (respErr 500 "Failed to parse AI response.", true, fs)
          | some extracted =>
            (⟨200, extracted⟩, true, fs.filter (fun e => !(e.1 == filePath)))

/-- POST analyze-recipe-image (base64 variant): validation gate, data-url
strip, model call, JSON.parse of the completion with no extraction. -/
def analyzeRecipeImageBase64 (image : Option String) (model : ModelFn) :
    Response × Bool :=
  match image with
  | some img =>
    if img == "" then (respErr 400 "Image data is required.", false)
    else
      match model [⟨"user", base64VisionText ++ "\n"
          ++ "data:image/jpeg;base64," ++ stripDataUrl img⟩] with
      | Except.error _ => (respErr 500 "Failed to analyze recipe image.", true)
      | Except.ok content =>
        match jsonParseL content.toList with
        | none => (respErr 500 "Failed to parse recipe data from image.", true)
        | some v => (⟨200, Json.obj [("recipe", v)]⟩, true)
  | none => (respErr 400 "Image data is required.", false)

/-- POST delete-recipe: dependent favorites rows are deleted first, then
the recipe row; the deleted recipe rows come back as data. -/
def deleteRecipe (id : Option String) (s : Store) : Response × Store :=
  match id with
  | none => (respErr 400 "Recipe id is required.", s)
  | some idv =>
    if idv == "" then (respErr 400 "Recipe id is required.", s)
    else
      let favorites2 := s.favorites.filter (fun f => !(f.recipe_id == idv))
      let deletedRows := s.recipes.filter (fun r => r.id == idv)
      let recipes2 := s.recipes.filter (fun r => !(r.id == idv))
      (⟨200, Json.obj [("success", Json.bool true),
          ("data", Json.arr (deletedRows.map encodeRecipe))]⟩,
       ⟨recipes2, favorites2⟩)

/-- Fixed nutrition key set of the recipe schema. -/
def nutritionKeys : List String :=
  ["calories", "fat", "cholesterol", "sodium", "carbs", "fiber", "sugar", "protein"]

/-- Does an object carry a member with the given key. -/
def objHasKey (kvs : List (String × Json)) (k : String) : Bool :=
  kvs.any (fun kv => kv.1 == k)

/-- Does a JSON value carry all eight fixed nutrition keys. -/
def hasAllNutritionKeys : Json → Bool
  | Json.obj kvs => nutritionKeys.all (objHasKey kvs)
  | _ => false

/-! Concrete fixtures used by the theorems below. -/

/-- The empty store. -/
def emptyStore : Store := ⟨[], []⟩

/-- A recipe row fixture. -/
def rBase : Recipe :=
  ⟨"r1", "u1", "Old title", "h", ["Dinner"], ["i1"], ["s1"], Json.null, none, [],
   "2024-01-01"⟩

/-- An update fixture supplying only user_id. -/
def u8 : RecipeUpdate :=
  ⟨some "u2", none, none, none, none, none, none, none, none, none⟩

/-- An uploads directory holding one temp file. -/
def fs9 : List (String × String) := [("uploads/tmp1", "IMGDATA")]

/-- A store holding an orphan favorites row and no recipes. -/
def s10 : Store := ⟨[], [⟨"u1", "r9"⟩]⟩

/-! Claim theorems. -/

/-- C4: for every recipe id and store state, delete-recipe removes all
favorites rows whose recipe_id references that recipe together with the
recipe row, so after the delete no favorite relation references the
deleted recipe and no recipe row carries that id. -/
theorem deleteRecipe_no_orphan_favorites (s : Store) (idv : String)
    (h : (idv == "") = false) :
    ((deleteRecipe (some idv) s).2.favorites.all
        (fun f => !(f.recipe_id == idv))) = true
    ∧ ((deleteRecipe (some idv) s).2.recipes.all
        (fun r => !(r.id == idv))) = true := by
  simp only [deleteRecipe, h, Bool.false_eq_true, if_false]
  constructor <;>
    · rw [List.all_eq_true]
      intro x hx
      exact (List.mem_filter.mp hx).2

/-- Witness for C4 at a concrete store with two favoriting users. -/
theorem deleteRecipe_no_orphan_favorites_witness :
    ((deleteRecipe (some "r1") ⟨[rBase], [⟨"u1", "r1"⟩, ⟨"u2", "r1"⟩]⟩).2.favorites.all
        (fun f => !(f.recipe_id == "r1"))) = true
    ∧ ((deleteRecipe (some "r1") ⟨[rBase], [⟨"u1", "r1"⟩, ⟨"u2", "r1"⟩]⟩).2.recipes.all
        (fun r => !(r.id == "r1"))) = true :=
  deleteRecipe_no_orphan_favorites ⟨[rBase], [⟨"u1", "r1"⟩, ⟨"u2", "r1"⟩]⟩ "r1"
    (by decide)

/-- C3 (code bug): favoriting the same pair twice inserts a second relation
row — the insert is unconditional — and the favorite-check then errors in
maybeSingle instead of answering true, so the at-most-one-row invariant is
violated by the code. -/
theorem favorite_twice_duplicate_rows :
    ((favoriteRecipe (some "u1") (some "r1")
        ((favoriteRecipe (some "u1") (some "r1") emptyStore).2)).2).favorites
      = [⟨"u1", "r1"⟩, ⟨"u1", "r1"⟩]
    ∧ favoriteRecipeCheck (some "u1") (some "r1")
        ((favoriteRecipe (some "u1") (some "r1")
          ((favoriteRecipe (some "u1") (some "r1") emptyStore).2)).2)
      = respErr 500 "Failed to check favorite status." := ⟨rfl, rfl⟩

/-- C9 (code bug): the upload image route unlinks its temp file only on the
success path; on a parse failure and on a model failure the file is still
in the uploads directory afterwards. -/
theorem analyze_temp_file_leak :
    analyzeRecipeImage (some "uploads/tmp1") fs9
        (fun _ => Except.ok "Sorry, I cannot read that image.")
      = (respErr 500 "Failed to parse AI response.", true, fs9)
    ∧ analyzeRecipeImage (some "uploads/tmp1") fs9 (fun _ => Except.error ())
      = (respErr 500 "Failed to analyze image.", true, fs9)
    ∧ analyzeRecipeImage (some "uploads/tmp1") fs9
        (fun _ => Except.ok "\x7b\"title\":\"T\"\x7d")
      = (⟨200, Json.obj [("title", Json.str "T")]⟩, true, []) := ⟨rfl, rfl, rfl⟩

/-- C1 counterexample: an ideation completion whose only candidate lacks
nutrition_info is returned to the caller exactly as parsed, without the
eight nutrition keys. -/
theorem inspire_missing_nutrition_cex :
    inspireRecipes (some "quick dinner")
        (fun _ => Except.ok "[\x7b\"title\":\"X\"\x7d]")
      = (⟨200, Json.obj [("recipes",
          Json.arr [Json.obj [("title", Json.str "X")]])]⟩, true)
    ∧ hasAllNutritionKeys (Json.obj [("title", Json.str "X")]) = false := ⟨rfl, rfl⟩

/-- C2 counterexample: an ideation completion that wraps the JSON array in
conversational prose makes the handler answer the parse-failure response;
the embedded payload is not extracted. -/
theorem inspire_prose_wrapped_cex :
    inspireRecipes (some "breakfast ideas")
        (fun _ => Except.ok "Here are some ideas:\n[1]")
      = (respErr 500 "Failed to parse AI response.", true)
    ∧ (inspireRecipes (some "breakfast ideas")
        (fun _ => Except.ok "Here are some ideas:\n[1]")).1.status ≠ 200 :=
  ⟨rfl, by decide⟩

/-- C5 counterexample: the upload image route with no file responds with the
generic 500 failure, not a 400 invalid-request, though no model call is
made. -/
theorem analyze_missing_file_cex :
    analyzeRecipeImage none [] (fun _ => Except.error ())
      = (respErr 500 "Failed to analyze image.", false, [])
    ∧ (analyzeRecipeImage none [] (fun _ => Except.error ())).1.status ≠ 400 :=
  ⟨rfl, by decide⟩

/-- C8 counterexample: an update request supplying user_id overwrites the
stored owner of an existing recipe, so user_id is not immutable. -/
theorem update_user_id_mutable_cex :
    ((updateRecipe (some "r1") u8 ⟨[rBase], []⟩).2.recipes.map Recipe.user_id)
      = ["u2"]
    ∧ rBase.user_id = "u1" := ⟨rfl, rfl⟩

/-- C10 counterexample: deleting an id that matches no stored recipe still
removes favorites rows referencing that id, so the favorites relation is
not always left unchanged. -/
theorem delete_nonexistent_removes_orphan_cex :
    (s10.recipes.all (fun r => !(r.id == "r9"))) = true
    ∧ (deleteRecipe (some "r9") s10).2.favorites = []
    ∧ s10.favorites = [⟨"u1", "r9"⟩] := ⟨rfl, rfl, rfl⟩

/-- Helper: a JSON parse cannot start at a character that is neither
whitespace nor a value-start character, whatever the fuel. -/
theorem parseValue_none_of_bad_head (fuel : Nat) (c : Char) (rest : List Char)
    (hws : isJsonWs c = false) (hst : isJsonStart c = false) :
    parseValue fuel (c :: rest) = none := by
  cases fuel with
  | zero => rfl
  | succ n =>
    simp only [isJsonStart, Bool.or_eq_false_iff] at hst
    obtain ⟨⟨⟨⟨⟨⟨⟨h1, h2⟩, h3⟩, h4⟩, h5⟩, h6⟩, h7⟩, h8⟩ := hst
    simp [parseValue, skipWs, hws, h1, h2, h3, h4, h5, h6, h7, h8]

/-- Helper: JSON.parse fails on input whose first character is neither
whitespace nor a value-start character. -/
theorem jsonParseL_none_of_bad_head (c : Char) (rest : List Char)
    (hws : isJsonWs c = false) (hst : isJsonStart c = false) :
    jsonParseL (c :: rest) = none := by
  unfold jsonParseL
  rw [parseValue_none_of_bad_head _ _ _ hws hst]

/-- C2 amended: the ideation flow performs no extraction at all — whenever
the trimmed completion starts with a character that cannot begin a JSON
value (conversational prose), the handler answers the parse-failure
response instead of locating the embedded payload; only the upload image
route extracts a substring, from the first opening brace to the last
closing brace, before parsing. -/
theorem ideation_no_extraction (p content : String) (c : Char) (rest : List Char)
    (hp : (p == "") = false)
    (hhead : trimL content.toList = c :: rest)
    (hws : isJsonWs c = false)
    (hst : isJsonStart c = false) :
    inspireRecipes (some p) (fun _ => Except.ok content)
      = (respErr 500 "Failed to parse AI response.", true)
    ∧ analyzeRecipeImage (some "uploads/a") [("uploads/a", "D")]
        (fun _ => Except.ok "Sure! \x7b\"title\":\"X\"\x7d Thanks")
      = (⟨200, Json.obj [("title", Json.str "X")]⟩, true, []) := by
  constructor
  · have hnone : jsonParseL (trimL content.toList) = none := by
      rw [hhead]
      exact jsonParseL_none_of_bad_head c rest hws hst
    simp only [inspireRecipes, hp, Bool.false_eq_true, if_false, hnone]
  · rfl

/-- Witness for C2 amended at a concrete prose-wrapped completion. -/
theorem ideation_no_extraction_witness :
    inspireRecipes (some "breakfast") (fun _ => Except.ok "Hi [1]")
      = (respErr 500 "Failed to parse AI response.", true)
    ∧ analyzeRecipeImage (some "uploads/a") [("uploads/a", "D")]
        (fun _ => Except.ok "Sure! \x7b\"title\":\"X\"\x7d Thanks")
      = (⟨200, Json.obj [("title", Json.str "X")]⟩, true, []) :=
  ideation_no_extraction "breakfast" "Hi [1]" 'H' "i [1]".toList
    (by decide) rfl (by decide) (by decide)

/-- C1 amended: the pipeline returns the parsed JSON payload to the caller
unchanged — no nutrition keys are added or filled; the only transformations
are the trim before parsing on the ideation route and the brace-substring
extraction on the upload image route. -/
theorem pipeline_returns_payload_unchanged
    (p content : String) (v : Json)
    (filePath text : String) (fs : List (String × String))
    (entry : String × String) (sub : List Char) (w : Json)
    (hp : (p == "") = false)
    (hv : jsonParseL (trimL content.toList) = some v)
    (hfind : fs.find? (fun e => e.1 == filePath) = some entry)
    (hsub : extractBraces text.toList = some sub)
    (hw : jsonParseL sub = some w) :
    inspireRecipes (some p) (fun _ => Except.ok content)
      = (⟨200, Json.obj [("recipes", v)]⟩, true)
    ∧ analyzeRecipeImage (some filePath) fs (fun _ => Except.ok text)
      = (⟨200, w⟩, true, fs.filter (fun e => !(e.1 == filePath))) := by
  constructor
  · simp only [inspireRecipes, hp, Bool.false_eq_true, if_false, hv]
  · simp only [analyzeRecipeImage, hfind, hsub, hw]

/-- Witness for C1 amended: a parsed array and a parsed object come back
exactly as parsed. -/
theorem pipeline_returns_payload_unchanged_witness :
    inspireRecipes (some "p") (fun _ => Except.ok " [1] ")
      = (⟨200, Json.obj [("recipes", Json.arr [Json.num "1"])]⟩, true)
    ∧ analyzeRecipeImage (some "uploads/b") [("uploads/b", "D")]
        (fun _ => Except.ok "ok \x7b\x7d done")
      = (⟨200, Json.obj []⟩, true,
         ([("uploads/b", "D")] : List (String × String)).filter
           (fun e => !(e.1 == "uploads/b"))) :=
  pipeline_returns_payload_unchanged "p" " [1] " (Json.arr [Json.num "1"])
    "uploads/b" "ok \x7b\x7d done" [("uploads/b", "D")] ("uploads/b", "D")
    "\x7b\x7d".toList (Json.obj []) (by decide) rfl rfl rfl rfl

/-- C5 amended: a missing required input makes the question-answering,
ideation and base64 image routes answer the 400 invalid-request response
with no model call; the upload image route with a missing file also makes
no model call, but answers the generic 500 failure instead of a 400. -/
theorem missing_input_fail_fast (model : ModelFn)
    (q : Option String) (recv : Option Recipe) (p img fileP : Option String)
    (fs : List (String × String))
    (hq : present q = false ∨ recv = none)
    (hp : present p = false)
    (himg : present img = false)
    (hfile : fileP = none) :
    askAiChef q recv model
      = (respErr 400 "Question and recipe are required.", false)
    ∧ inspireRecipes p model = (respErr 400 "Prompt is required.", false)
    ∧ analyzeRecipeImageBase64 img model
      = (respErr 400 "Image data is required.", false)
    ∧ analyzeRecipeImage fileP fs model
      = (respErr 500 "Failed to analyze image.", false, fs) := by
  refine ⟨?_, ?_, ?_, ?_⟩
  · rcases hq with hq | hq
    · cases q with
      | none => cases recv <;> rfl
      | some qs =>
        have hqs : (qs == "") = true := by simpa [present] using hq
        cases recv with
        | none => rfl
        | some rec => simp [askAiChef, hqs]
    · subst hq
      cases q <;> rfl
  · cases p with
    | none => rfl
    | some ps =>
      have hps : (ps == "") = true := by simpa [present] using hp
      simp [inspireRecipes, hps]
  · cases img with
    | none => rfl
    | some im =>
      have him : (im == "") = true := by simpa [present] using himg
      simp [analyzeRecipeImageBase64, him]
  · subst hfile
    rfl

/-- Witness for C5 amended at concretely missing inputs. -/
theorem missing_input_fail_fast_witness :
    askAiChef none none (fun _ => Except.error ())
      = (respErr 400 "Question and recipe are required.", false)
    ∧ inspireRecipes (some "") (fun _ => Except.error ())
      = (respErr 400 "Prompt is required.", false)
    ∧ analyzeRecipeImageBase64 none (fun _ => Except.error ())
      = (respErr 400 "Image data is required.", false)
    ∧ analyzeRecipeImage none [] (fun _ => Except.error ())
      = (respErr 500 "Failed to analyze image.", false, []) :=
  missing_input_fail_fast (fun _ => Except.error ()) none none (some "") none
    none [] (Or.inr rfl) (by decide) rfl rfl

/-- C6: for both listings, a supplied search term admits only recipes whose
title contains it case-insensitively, a supplied tag set admits only
recipes whose tag set intersects it, and when both are supplied the result
is exactly the owner (resp. join) base filtered by the conjunction. -/
theorem list_filtering_semantics (s : Store) (uid sv tv : String) (r : Recipe)
    (hs : (sv == "") = false) (ht : (tv == "") = false) :
    (∀ tg : Option String, r ∈ listByOwner s uid (some sv) tg →
        containsCI r.title sv = true)
    ∧ (∀ sr : Option String, r ∈ listByOwner s uid sr (some tv) →
        ((splitTags tv).any (fun t => r.tag.contains t)) = true)
    ∧ listByOwner s uid (some sv) (some tv)
      = (s.recipes.filter (fun x => x.user_id == uid)).filter
          (fun x => ((splitTags tv).any (fun t => x.tag.contains t))
            && containsCI x.title sv)
    ∧ (∀ tg : Option String, r ∈ listFavoritesForUser s uid (some sv) tg →
        containsCI r.title sv = true)
    ∧ (∀ sr : Option String, r ∈ listFavoritesForUser s uid sr (some tv) →
        ((splitTags tv).any (fun t => r.tag.contains t)) = true)
    ∧ listFavoritesForUser s uid (some sv) (some tv)
      = (favoritesJoin s uid).filter
          (fun x => ((splitTags tv).any (fun t => x.tag.contains t))
            && containsCI x.title sv) := by
  refine ⟨?_, ?_, ?_, ?_, ?_, ?_⟩
  · intro tg hmem
    cases tg with
    | none =>
      simp only [listByOwner, hs, Bool.false_eq_true, if_false] at hmem
      exact (List.mem_filter.mp hmem).2
    | some tvv =>
      by_cases htv : (tvv == "") = true
      · simp only [listByOwner, hs, htv, Bool.false_eq_true, if_false,
          if_true] at hmem
        exact (List.mem_filter.mp hmem).2
      · rw [Bool.not_eq_true] at htv
        simp only [listByOwner, hs, htv, Bool.false_eq_true, if_false] at hmem
        exact (List.mem_filter.mp (List.mem_filter.mp hmem).1).2
  · intro sr hmem
    cases sr with
    | none =>
      simp only [listByOwner, ht, Bool.false_eq_true, if_false] at hmem
      exact (List.mem_filter.mp hmem).2
    | some svv =>
      by_cases hsv : (svv == "") = true
      · simp only [listByOwner, ht, hsv, Bool.false_eq_true, if_false,
          if_true] at hmem
        exact (List.mem_filter.mp hmem).2
      · rw [Bool.not_eq_true] at hsv
        simp only [listByOwner, ht, hsv, Bool.false_eq_true, if_false] at hmem
        exact (List.mem_filter.mp hmem).2
  · simp only [listByOwner, hs, ht, Bool.false_eq_true, if_false]
    rw [List.filter_filter]
  · intro tg hmem
    cases tg with
    | none =>
      simp only [listFavoritesForUser, hs, Bool.false_eq_true, if_false] at hmem
      exact (List.mem_filter.mp hmem).2
    | some tvv =>
      by_cases htv : (tvv == "") = true
      · simp only [listFavoritesForUser, hs, htv, Bool.false_eq_true, if_false,
          if_true] at hmem
        exact (List.mem_filter.mp hmem).2
      · rw [Bool.not_eq_true] at htv
        simp only [listFavoritesForUser, hs, htv, Bool.false_eq_true,
          if_false] at hmem
        exact (List.mem_filter.mp (List.mem_filter.mp hmem).1).2
  · intro sr hmem
    cases sr with
    | none =>
      simp only [listFavoritesForUser, ht, Bool.false_eq_true, if_false] at hmem
      exact (List.mem_filter.mp hmem).2
    | some svv =>
      by_cases hsv : (svv == "") = true
      · simp only [listFavoritesForUser, ht, hsv, Bool.false_eq_true, if_false,
          if_true] at hmem
        exact (List.mem_filter.mp hmem).2
      · rw [Bool.not_eq_true] at hsv
        simp only [listFavoritesForUser, ht, hsv, Bool.false_eq_true,
          if_false] at hmem
        exact (List.mem_filter.mp hmem).2
  · simp only [listFavoritesForUser, hs, ht, Bool.false_eq_true, if_false]
    rw [List.filter_filter]

/-- A recipe fixture matched by the search term toast and the tag set
Breakfast, Snack. -/
def wRecipe : Recipe :=
  ⟨"1", "u1", "Avocado Toast", "", ["Breakfast"], [], [], Json.null, none, [], ""⟩

/-- A store owning the fixture recipe, favorited by its owner. -/
def wStore6 : Store := ⟨[wRecipe], [⟨"u1", "1"⟩]⟩

/-- Witness for C6 at a concrete store, search term and tag set. -/
theorem list_filtering_semantics_witness :
    containsCI wRecipe.title "toast" = true
    ∧ ((splitTags "Breakfast,Snack").any (fun t => wRecipe.tag.contains t))
      = true :=
  have h := list_filtering_semantics wStore6 "u1" "toast" "Breakfast,Snack"
    wRecipe (by decide) (by decide)
  ⟨h.1 none (show wRecipe ∈ listByOwner wStore6 "u1" (some "toast") none from
      List.mem_cons_self wRecipe []),
   h.2.1 none
    (show wRecipe ∈ listByOwner wStore6 "u1" none (some "Breakfast,Snack") from
      List.mem_cons_self wRecipe [])⟩

/-- C7: the update is a partial merge — the id is never written, every
unsupplied field is unchanged, every supplied field takes the supplied
value, non-matching rows are untouched, and the matching row becomes its
merge. -/
theorem updateRecipe_partial_merge (s : Store) (idv : String) (u : RecipeUpdate)
    (r : Recipe) (hid : (idv == "") = false) :
    (applyUpdate u r).id = r.id
    ∧ (u.user_id = none → (applyUpdate u r).user_id = r.user_id)
    ∧ (∀ w, u.user_id = some w → (applyUpdate u r).user_id = w)
    ∧ (u.title = none → (applyUpdate u r).title = r.title)
    ∧ (∀ w, u.title = some w → (applyUpdate u r).title = w)
    ∧ (u.highlight = none → (applyUpdate u r).highlight = r.highlight)
    ∧ (∀ w, u.highlight = some w → (applyUpdate u r).highlight = w)
    ∧ (u.tag = none → (applyUpdate u r).tag = r.tag)
    ∧ (∀ w, u.tag = some w → (applyUpdate u r).tag = w)
    ∧ (u.ingredients = none → (applyUpdate u r).ingredients = r.ingredients)
    ∧ (∀ w, u.ingredients = some w → (applyUpdate u r).ingredients = w)
    ∧ (u.instructions = none → (applyUpdate u r).instructions = r.instructions)
    ∧ (∀ w, u.instructions = some w → (applyUpdate u r).instructions = w)
    ∧ (u.nutrition_info = none →
        (applyUpdate u r).nutrition_info = r.nutrition_info)
    ∧ (∀ w, u.nutrition_info = some w → (applyUpdate u r).nutrition_info = w)
    ∧ (u.image = none → (applyUpdate u r).image = r.image)
    ∧ (∀ w, u.image = some w → (applyUpdate u r).image = w)
    ∧ (u.supporting_images = none →
        (applyUpdate u r).supporting_images = r.supporting_images)
    ∧ (∀ w, u.supporting_images = some w →
        (applyUpdate u r).supporting_images = w)
    ∧ (u.created_at = none → (applyUpdate u r).created_at = r.created_at)
    ∧ (∀ w, u.created_at = some w → (applyUpdate u r).created_at = w)
    ∧ ((r.id == idv) = false → r ∈ s.recipes →
        r ∈ (updateRecipe (some idv) u s).2.recipes)
    ∧ ((r.id == idv) = true → r ∈ s.recipes →
        applyUpdate u r ∈ (updateRecipe (some idv) u s).2.recipes) := by
  refine ⟨rfl, ?_, ?_, ?_, ?_, ?_, ?_, ?_, ?_, ?_, ?_, ?_, ?_, ?_, ?_, ?_, ?_,
    ?_, ?_, ?_, ?_, ?m1, ?m2⟩
  case m1 =>
    intro hb hm
    simp only [updateRecipe, hid, Bool.false_eq_true, if_false]
    have hmap := List.mem_map_of_mem
      (fun x => if x.id == idv then applyUpdate u x else x) hm
    simpa [hb] using hmap
  case m2 =>
    intro hb hm
    simp only [updateRecipe, hid, Bool.false_eq_true, if_false]
    have hmap := List.mem_map_of_mem
      (fun x => if x.id == idv then applyUpdate u x else x) hm
    simpa [hb] using hmap
  all_goals first
    | (intro h; simp [applyUpdate, h])
    | (intro w h; simp [applyUpdate, h])

/-- Witness for C7: an update supplying only user_id keeps the id and
title and writes the supplied owner value. -/
theorem updateRecipe_partial_merge_witness :
    (applyUpdate u8 rBase).id = rBase.id
    ∧ (applyUpdate u8 rBase).title = rBase.title
    ∧ (applyUpdate u8 rBase).user_id = "u2" :=
  have h := updateRecipe_partial_merge ⟨[rBase], []⟩ "r1" u8 rBase (by decide)
  ⟨h.1, h.2.2.2.1 rfl, h.2.2.1 "u2" rfl⟩

/-- C8 amended: user_id is not immutable — the update route overwrites it
exactly when the caller supplies it and preserves it when not; the
favorite route never touches the recipes table, and the delete route never
produces a recipe row that was not already stored. -/
theorem user_id_update_semantics (u : RecipeUpdate) (r : Recipe) :
    (u.user_id = none → (applyUpdate u r).user_id = r.user_id)
    ∧ (∀ w, u.user_id = some w → (applyUpdate u r).user_id = w)
    ∧ (∀ uo ro s, (favoriteRecipe uo ro s).2.recipes = s.recipes)
    ∧ (∀ ido s, ∀ x : Recipe,
        x ∈ (deleteRecipe ido s).2.recipes → x ∈ s.recipes) := by
  refine ⟨?_, ?_, ?_, ?_⟩
  · intro h
    simp [applyUpdate, h]
  · intro w h
    simp [applyUpdate, h]
  · intro uo ro s
    cases uo with
    | none => rfl
    | some uv =>
      cases ro with
      | none => rfl
      | some rv =>
        simp only [favoriteRecipe]
        split <;> rfl
  · intro ido s x hx
    cases ido with
    | none => exact hx
    | some idv =>
      by_cases hi : (idv == "") = true
      · simp only [deleteRecipe, hi, if_true] at hx
        exact hx
      · rw [Bool.not_eq_true] at hi
        simp only [deleteRecipe, hi, Bool.false_eq_true, if_false] at hx
        exact (List.mem_filter.mp hx).1

/-- Witness for C8 amended: a supplied owner value is written; favoriting
leaves the recipes table unchanged. -/
theorem user_id_update_semantics_witness :
    (applyUpdate u8 rBase).user_id = "u2"
    ∧ (favoriteRecipe (some "u1") (some "r1") emptyStore).2.recipes
      = emptyStore.recipes :=
  have h := user_id_update_semantics u8 rBase
  ⟨h.2.1 "u2" rfl, h.2.2.1 (some "u1") (some "r1") emptyStore⟩

/-- C10 amended: deleting an id matching no stored recipe reports success
with empty data and leaves the recipes table unchanged; the favorites
table keeps exactly its rows not referencing that id, so the whole store
is unchanged precisely when no favorite row references the deleted id. -/
theorem deleteRecipe_idempotent_success (s : Store) (idv : String)
    (hid : (idv == "") = false)
    (hno : s.recipes.all (fun r => !(r.id == idv)) = true) :
    (deleteRecipe (some idv) s).1
      = ⟨200, Json.obj [("success", Json.bool true), ("data", Json.arr [])]⟩
    ∧ (deleteRecipe (some idv) s).2.recipes = s.recipes
    ∧ (deleteRecipe (some idv) s).2.favorites
      = s.favorites.filter (fun f => !(f.recipe_id == idv))
    ∧ (s.favorites.all (fun f => !(f.recipe_id == idv)) = true →
        (deleteRecipe (some idv) s).2 = s) := by
  have hdel : s.recipes.filter (fun r => r.id == idv) = [] := by
    rw [List.filter_eq_nil_iff]
    intro a ha
    have := List.all_eq_true.mp hno a ha
    simp only [Bool.not_eq_true'] at this
    simp [this]
  have hkeep : s.recipes.filter (fun r => !(r.id == idv)) = s.recipes := by
    rw [List.filter_eq_self]
    intro a ha
    exact List.all_eq_true.mp hno a ha
  refine ⟨?_, ?_, ?_, ?_⟩
  · simp only [deleteRecipe, hid, Bool.false_eq_true, if_false, hdel,
      List.map_nil]
  · simp only [deleteRecipe, hid, Bool.false_eq_true, if_false, hkeep]
  · simp only [deleteRecipe, hid, Bool.false_eq_true, if_false]
  · intro hfav
    have hkeep2 : s.favorites.filter (fun f => !(f.recipe_id == idv))
        = s.favorites := by
      rw [List.filter_eq_self]
      intro a ha
      exact List.all_eq_true.mp hfav a ha
    simp only [deleteRecipe, hid, Bool.false_eq_true, if_false, hkeep, hkeep2]

/-- Witness for C10 amended at a store where the id matches nothing. -/
theorem deleteRecipe_idempotent_success_witness :
    (deleteRecipe (some "zzz") ⟨[rBase], [⟨"u1", "r1"⟩]⟩).1
      = ⟨200, Json.obj [("success", Json.bool true), ("data", Json.arr [])]⟩
    ∧ (deleteRecipe (some "zzz") ⟨[rBase], [⟨"u1", "r1"⟩]⟩).2
      = ⟨[rBase], [⟨"u1", "r1"⟩]⟩ :=
  have h := deleteRecipe_idempotent_success ⟨[rBase], [⟨"u1", "r1"⟩]⟩ "zzz"
    (by decide) (by rfl)
  ⟨h.1, h.2.2.2 (by rfl)⟩

end SimpleSpoon
